import Mathlib

/-!
Verification of the Resilient API Client of `mvp_ai/gemini_client.py`
(HeritageAI repository).

The retry / credential-rotation / upload layer is shallowly
embedded: HTTP transports become explicit functions from the attempt
number (and client state) to an `Except String` result carrying the
exception message, the mutable client object becomes an explicit
`ClientState` record threaded through the functions, and `time.sleep`
calls are recorded in a trace field of the state.
-/

namespace GeminiClient

/-- Character-list version of "`sub` starts `hay`". -/
def listStartsWith : List Char → List Char → Bool
  | [], _ => true
  | _ :: _, [] => false
  | a :: as, b :: bs => a = b && listStartsWith as bs

/-- Character-list version of "`sub` occurs inside `hay`". -/
def listContainsSub (sub : List Char) : List Char → Bool
  | [] => listStartsWith sub []
  | c :: cs => listStartsWith sub (c :: cs) || listContainsSub sub cs

/-- Substring test: Python `sub in hay`. -/
def strContains (hay sub : String) : Bool :=
  listContainsSub sub.toList hay.toList

/-- Client state: the fields of `GeminiClient` relevant to retry and
credential rotation (`__init__`, lines 14-29), plus a trace of the
millisecond durations passed to `time.sleep` so that "no sleep" claims
can be stated. -/
structure ClientState where
  apiKeys : List String
  currentKeyIndex : Nat
  maxRetries : Nat
  retryDelay429 : Nat
  retryDelay503 : Nat
  retryDelay500 : Nat
  sleeps : List Nat := []
  deriving Repr, DecidableEq

/-- Embedding of `_switch_api_key` (lines 54-57): advance the current key index with
wrap-around. -/
def switchApiKey (st : ClientState) : ClientState :=
  { st with currentKeyIndex := (st.currentKeyIndex + 1) % st.apiKeys.length }

/-- Record a blocking `time.sleep` of the given number of milliseconds. -/
def pushSleep (st : ClientState) (ms : Nat) : ClientState :=
  { st with sleeps := st.sleeps ++ [ms] }

/-- The failure classes distinguished by `_handle_error`. -/
inductive ErrClass where
  | rateLimit
  | unavailable
  | serverError
  | timeout
  | unclassified
  deriving Repr, DecidableEq

/-- Python `s.lower()` on the ASCII exception messages involved:
per-character lowering. -/
def pyLower (s : String) : String :=
  String.mk (s.toList.map Char.toLower)

/-- The classification chain of `_handle_error` (lines 61, 67-90):
lowercase the exception message and test the signal substrings in the
order of the source. -/
def classifyError (errorMsg : String) : ErrClass :=
  let m := pyLower errorMsg
  if strContains m "429" || strContains m "too many requests" then .rateLimit
  else if strContains m "503" || strContains m "service unavailable" then .unavailable
  else if strContains m "500" || strContains m "internal server error" then .serverError
  else if strContains m "timeout" then .timeout
  else .unclassified

/-- Embedding of `_handle_error` (lines 59-90): returns whether to retry, together
with the state after its side effects (rotation for the rate-limit
class, a sleep for every retryable class).  The `retry_count >=
max_retries` check precedes all classification. -/
def handleError (st : ClientState) (errorMsg : String)
    (retryCount maxRetries : Nat) : Bool × ClientState :=
  if maxRetries ≤ retryCount then (false, st)
  else
    match classifyError errorMsg with
    | .rateLimit => (true, pushSleep (switchApiKey st) st.retryDelay429)
    | .unavailable => (true, pushSleep st st.retryDelay503)
    | .serverError => (true, pushSleep st st.retryDelay500)
    | .timeout => (true, pushSleep st 2000)
    | .unclassified => (false, st)

/-- Terminal failures of `_make_request_with_retry`: either `raise e`
re-raising the message of the underlying exception, or the final
retries-exhausted Exception of line 118 naming the configured limit. -/
inductive ReqError where
  | raised (msg : String)
  | exhausted (maxRetries : Nat)
  deriving Repr, DecidableEq

/-- The `for retry_count in range(max_retries + 1)` loop body of
`_make_request_with_retry` (lines 109-118).  `fuel` is the number of
loop iterations still permitted; the transport `req` receives the
attempt number and the current state.  Returns the result, the final
state, and the number of calls made to `req`. -/
def retryFrom (req : Nat → ClientState → Except String α) (maxRetries : Nat) :
    Nat → Nat → ClientState → Except ReqError α × ClientState × Nat
  | _, 0, st => (.error (.exhausted maxRetries), st, 0)
  | retryCount, fuel + 1, st =>
    match req retryCount st with
    | .ok a => (.ok a, st, 1)
    | .error e =>
      match handleError st e retryCount maxRetries with
      | (false, st') => (.error (.raised e), st', 1)
      | (true, st') =>
        let r := retryFrom req maxRetries (retryCount + 1) fuel st'
        (r.1, r.2.1, r.2.2 + 1)

/-- Embedding of `_make_request_with_retry` (lines 109-118): run the transport for at
most `max_retries + 1` attempts. -/
def makeRequestWithRetry (req : Nat → ClientState → Except String α)
    (st : ClientState) : Except ReqError α × ClientState × Nat :=
  retryFrom req st.maxRetries 0 (st.maxRetries + 1) st

/-! ### Image generation (`_generate_image_request`, lines 120-156) -/

/-- Python `s.rstrip(chars)`: remove trailing characters drawn from
the character set `chars`. -/
def pyRstrip (s : String) (chars : List Char) : String :=
  String.mk (s.toList.reverse.dropWhile (fun c => chars.contains c)).reverse

/-- Python `s.strip()`: remove leading and trailing whitespace. -/
def pyStrip (s : String) : String :=
  String.mk ((s.toList.dropWhile Char.isWhitespace).reverse.dropWhile Char.isWhitespace).reverse

/-- Python truthiness of `Optional[str]`: `None` and `""` are falsy. -/
def optTruthy : Option String → Bool
  | none => false
  | some s => !(s = "")

/-- The output file name of line 148: `filename` itself when
`sample_count == 1`, and otherwise the rstrip of `filename` by the
character set dot, p, n, g, followed by an underscore, the one-based
index, and `.png`. -/
def outName (filename : String) (sampleCount idx : Nat) : String :=
  if sampleCount = 1 then filename
  else pyRstrip filename [Char.ofNat 46, 'p', 'n', 'g'] ++ "_" ++ toString (idx + 1) ++ ".png"

/-- The save loop of lines 137-154: walk the response predictions (each
`Option String` is the optional `bytesBase64Encoded` payload), skip
payload-less predictions, default a falsy `filename` to the generated
time-stamped name (`gen`, computed once and then sticky via
the assignment on line 146), and collect the output names in order. -/
def savePredictions (sampleCount : Nat) (gen : String) :
    List (Option String) → Nat → Option String → List String
  | [], _, _ => []
  | p :: rest, idx, filename =>
    match p with
    | none => savePredictions sampleCount gen rest (idx + 1) filename
    | some _ =>
      let fn := if optTruthy filename then filename.getD "" else gen
      outName fn sampleCount idx :: savePredictions sampleCount gen rest (idx + 1) (some fn)

/-- Result shape of `_generate_image_request`: line 156 returns a single
path when `sample_count == 1` and a list otherwise. -/
inductive GenResult where
  | single (path : String)
  | multiple (paths : List String)
  deriving Repr, DecidableEq

/-- Python exception message for indexing an empty list. -/
def indexErrorMsg : String := "list index out of range"

/-- Lines 136-156 of `_generate_image_request`, after a successful HTTP
response whose predictions are `preds`: save the payloads, then return
`image_paths[0] if sample_count == 1 else image_paths`.  Indexing an
empty `image_paths` raises `IndexError`. -/
def generateImageResult (preds : List (Option String)) (sampleCount : Nat)
    (filename : Option String) (gen : String) : Except String GenResult :=
  let paths := savePredictions sampleCount gen preds 0 filename
  if sampleCount = 1 then
    match paths with
    | [] => .error indexErrorMsg
    | p :: _ => .ok (.single p)
  else .ok (.multiple paths)

/-- Embedding of `_generate_image_request` with the HTTP transport abstracted: the
transport yields either an exception message (connection error or
`raise_for_status`) or the predictions list of the response. -/
def generateImageRequest (httpResp : Except String (List (Option String)))
    (sampleCount : Nat) (filename : Option String) (gen : String) :
    Except String GenResult :=
  match httpResp with
  | .error e => .error e
  | .ok preds => generateImageResult preds sampleCount filename gen

/-- Embedding of `generate_image` (lines 92-100): the request run through the shared
retry wrapper; the transport may differ per attempt. -/
def generateImage (st : ClientState)
    (httpResp : Nat → Except String (List (Option String)))
    (sampleCount : Nat) (filename : Option String) (gen : String) :
    Except ReqError GenResult × ClientState × Nat :=
  makeRequestWithRetry (fun n _ => generateImageRequest (httpResp n) sampleCount filename gen) st

/-! ### Upload sub-protocol and image analysis (lines 173-244) -/

/-- Embedding of `_upload_image_to_gemini` (lines 209-244), with the two HTTP calls
abstracted.  `startResp` is the upload-start call: an exception message,
or the optional `X-Goog-Upload-URL` response header.  `transferResp` is
the transfer/finalize call: an exception message, or the optional
`file.uri` of its JSON body.  The enclosing `try/except` turns every
raise — HTTP failure or the `"No upload URL received"` of line 228 —
into a `None` return. -/
def uploadImageToGemini (startResp : Except String (Option String))
    (transferResp : Except String (Option String)) : Option String :=
  match startResp with
  | .error _ => none
  | .ok uploadUrl =>
    if optTruthy uploadUrl then
      match transferResp with
      | .error _ => none
      | .ok fileUri => fileUri
    else none

/-- The exception message of line 185. -/
def uploadFailedMsg : String := "Failed to upload image to Gemini"

/-- Embedding of `_analyze_image_with_prompt_request` (lines 181-207): upload first;
a falsy file URI raises `uploadFailedMsg`; otherwise issue the
content-analysis request (`analyzeResp`, abstracted: exception message
or the extracted candidate text) and return its stripped text.  The
Bool records whether the content-analysis POST of line 204 was issued. -/
def analyzeImageRequest (startResp transferResp : Except String (Option String))
    (analyzeResp : Except String String) : Except String String × Bool :=
  let fileUri := uploadImageToGemini startResp transferResp
  if optTruthy fileUri then
    match analyzeResp with
    | .error e => (.error e, true)
    | .ok text => (.ok (pyStrip text), true)
  else
    (.error uploadFailedMsg, false)

/-- Embedding of `analyze_image_with_prompt` (lines 173-179): the request run through
the shared retry wrapper (transports may differ per attempt). -/
def analyzeImageWithPrompt (st : ClientState)
    (startResp transferResp : Nat → Except String (Option String))
    (analyzeResp : Nat → Except String String) :
    Except ReqError String × ClientState × Nat :=
  makeRequestWithRetry
    (fun n _ => (analyzeImageRequest (startResp n) (transferResp n) (analyzeResp n)).1) st

/-! ### MIME type (`_get_mime_type`, lines 246-255) -/

/-- Index of the last occurrence of `c` in `cs`, `-1` when absent:
Python `str.rfind`. -/
def rfindIdx (cs : List Char) (c : Char) : Int :=
  match cs.reverse.findIdx? (fun x => x = c) with
  | none => -1
  | some j => Int.ofNat (cs.length - 1 - j)

/-- The extension part of `os.path.splitext` on a POSIX path: the last
dot-suffix of the final path component, empty when all dots of the component
are leading ones. -/
def splitextExt (p : String) : String :=
  let cs := p.toList
  let sepIndex := rfindIdx cs (Char.ofNat 47)
  let dotIndex := rfindIdx cs (Char.ofNat 46)
  if sepIndex < dotIndex then
    let d := dotIndex.toNat
    let f := (sepIndex + 1).toNat
    if ((cs.drop f).take (d - f)).any (fun ch => !(ch = Char.ofNat 46)) then
      String.mk (cs.drop d)
    else ""
  else ""

/-- Embedding of `_get_mime_type` (lines 246-255): the lowercased extension looked up
in the fixed dictionary, `image/jpeg` when absent. -/
def getMimeType (imagePath : String) : String :=
  let ext := pyLower (splitextExt imagePath)
  if ext = ".jpg" then "image/jpeg"
  else if ext = ".jpeg" then "image/jpeg"
  else if ext = ".png" then "image/png"
  else if ext = ".gif" then "image/gif"
  else if ext = ".webp" then "image/webp"
  else "image/jpeg"

/-- The fixed MIME mapping of the spec, written from the words of the spec for the
refinement comparison: the extension is compared case-insensitively
against the table sending `.jpg` and `.jpeg` to image/jpeg, `.png` to
image/png, `.gif` to image/gif and `.webp` to image/webp, every other
extension mapping to `image/jpeg`. -/
def mimeSpecMap (ext : String) : String :=
  let e := pyLower ext
  if e = ".jpg" ∨ e = ".jpeg" then "image/jpeg"
  else if e = ".png" then "image/png"
  else if e = ".gif" then "image/gif"
  else if e = ".webp" then "image/webp"
  else "image/jpeg"

/-! ### `generate_culture_details` (lines 257-273) -/

/-- Embedding of `generate_text` (lines 102-107): the text request through the shared
retry wrapper, the transport abstracted. -/
def generateText (st : ClientState)
    (req : Nat → ClientState → Except String String) :
    Except ReqError String × ClientState × Nat :=
  makeRequestWithRetry req st

/-- Embedding of `generate_culture_details` (lines 257-273): call `generate_text`,
return `details.strip() if details else ""`, and turn any raised
failure into `""`. -/
def generateCultureDetails (st : ClientState)
    (req : Nat → ClientState → Except String String) : String :=
  match (generateText st req).1 with
  | .ok details => if optTruthy (some details) then pyStrip details else ""
  | .error _ => ""

/-! ### Shared lemmas about the retry wrapper -/

/-- A concrete client state used by concrete instantiations: two keys,
`maxRetries = 3`, the default delays of `__init__`. -/
def wSt : ClientState :=
  { apiKeys := ["key-a", "key-b"], currentKeyIndex := 0, maxRetries := 3,
    retryDelay429 := 2000, retryDelay503 := 3000, retryDelay500 := 2000 }

/-- A transport succeeding at the first attempt makes the wrapper return
that result untouched after one call. -/
theorem makeRequest_ok (req : Nat → ClientState → Except String α)
    (st : ClientState) (v : α) (h : req 0 st = .ok v) :
    makeRequestWithRetry req st = (.ok v, st, 1) := by
  simp [makeRequestWithRetry, retryFrom, h]

/-- A transport whose first error is unclassified makes the wrapper
re-raise it at once, with the state untouched. -/
theorem makeRequest_unclassified (req : Nat → ClientState → Except String α)
    (st : ClientState) (msg : String) (h : req 0 st = .error msg)
    (hc : classifyError msg = .unclassified) :
    makeRequestWithRetry req st = (.error (.raised msg), st, 1) := by
  have hhe : handleError st msg 0 st.maxRetries = (false, st) := by
    unfold handleError
    rw [hc]
    split <;> rfl
  simp [makeRequestWithRetry, retryFrom, h, hhe]

/-- C5: against a transport whose error message matches none of the
recognized signal substrings, the shared retry wrapper fails after
exactly one attempt, propagating the original error, with no sleep
recorded and no credential rotation (the final state is the initial
state). -/
theorem unclassified_fails_fast (req : Nat → ClientState → Except String α)
    (st : ClientState) (msg : String) (h : req 0 st = .error msg)
    (hc : classifyError msg = .unclassified) :
    makeRequestWithRetry req st = (.error (.raised msg), st, 1) :=
  makeRequest_unclassified req st msg h hc

/-- Witness for C5 at the transport always raising "foo". -/
theorem unclassified_fails_fast_witness :
    makeRequestWithRetry (fun _ _ => (.error "foo" : Except String Nat)) wSt
      = (.error (.raised "foo"), wSt, 1) :=
  unclassified_fails_fast (fun _ _ => .error "foo") wSt "foo" rfl rfl

/-- C7: on a pool of size at least one and a valid current index, one
rotation sets the index to the successor modulo the pool size, the pool
itself is unchanged, and the new index is again a valid position. -/
theorem rotation_lands_on_valid_index (st : ClientState)
    (hpool : 0 < st.apiKeys.length)
    (_hidx : st.currentKeyIndex < st.apiKeys.length) :
    (switchApiKey st).currentKeyIndex = (st.currentKeyIndex + 1) % st.apiKeys.length ∧
    (switchApiKey st).apiKeys = st.apiKeys ∧
    (switchApiKey st).currentKeyIndex < (switchApiKey st).apiKeys.length :=
  ⟨rfl, rfl, Nat.mod_lt _ hpool⟩

/-- Witness for C7 at the two-key pool. -/
theorem rotation_lands_on_valid_index_witness :
    (switchApiKey wSt).currentKeyIndex = (wSt.currentKeyIndex + 1) % wSt.apiKeys.length ∧
    (switchApiKey wSt).apiKeys = wSt.apiKeys ∧
    (switchApiKey wSt).currentKeyIndex < (switchApiKey wSt).apiKeys.length :=
  rotation_lands_on_valid_index wSt (by decide) (by decide)

/-- C9: the out-of-bounds indexing of line 156 is reachable at the
public interface: with `sample_count = 1` and a successful HTTP response
whose predictions list is empty (or carries no base64 payload), the
saved-path list is empty, indexing it raises `IndexError`, and the
public operation propagates it (the message is unclassified, so after a
single attempt). -/
theorem empty_predictions_index_error :
    savePredictions 1 "g" [] 0 (some "base.png") = [] ∧
    savePredictions 1 "g" [none, none] 0 (some "base.png") = [] ∧
    generateImage wSt (fun _ => .ok []) 1 (some "base.png") "g"
      = (.error (.raised indexErrorMsg), wSt, 1) ∧
    generateImage wSt (fun _ => .ok [none, none]) 1 (some "base.png") "g"
      = (.error (.raised indexErrorMsg), wSt, 1) :=
  ⟨rfl, rfl, rfl, rfl⟩

/-- C10: `generate_culture_details` never raises: it yields the stripped
generated text when the underlying text generation succeeds and the
empty string on any failure of it, swallowing the error. -/
theorem culture_details_swallows_errors (st : ClientState)
    (req : Nat → ClientState → Except String String) :
    (∀ e, (generateText st req).1 = .error e → generateCultureDetails st req = "") ∧
    (∀ t, (generateText st req).1 = .ok t → generateCultureDetails st req = pyStrip t) := by
  constructor
  · intro e he
    unfold generateCultureDetails
    rw [he]
  · intro t ht
    unfold generateCultureDetails
    rw [ht]
    by_cases h : t = ""
    · subst h
      rfl
    · simp [optTruthy, h]

/-- Witness for C10: a failing transport yields the empty string, a
succeeding one the stripped text. -/
theorem culture_details_swallows_errors_witness :
    generateCultureDetails wSt (fun _ _ => .error "boom") = "" ∧
    generateCultureDetails wSt (fun _ _ => .ok "  some text  ") = pyStrip "  some text  " :=
  ⟨(culture_details_swallows_errors wSt (fun _ _ => .error "boom")).1 (.raised "boom") rfl,
   (culture_details_swallows_errors wSt (fun _ _ => .ok "  some text  ")).2 "  some text  " rfl⟩

/-- C6: when the upload-start response lacks the upload-target URL
header, the analyze request fails with the upload-failed message, the
content-analysis request is never issued (the Bool flag stays false),
and the public operation propagates the failure after a single
attempt. -/
theorem missing_upload_header_no_analysis
    (tr : Except String (Option String)) (an : Except String String)
    (st : ClientState) :
    analyzeImageRequest (.ok none) tr an = (.error uploadFailedMsg, false) ∧
    analyzeImageWithPrompt st (fun _ => .ok none) (fun _ => tr) (fun _ => an)
      = (.error (.raised uploadFailedMsg), st, 1) := by
  have h1 : analyzeImageRequest (.ok none) tr an = (.error uploadFailedMsg, false) := rfl
  have h2 : makeRequestWithRetry
      (fun _ _ => (analyzeImageRequest (.ok none) tr an).1) st
      = (.error (.raised uploadFailedMsg), st, 1) :=
    makeRequest_unclassified _ _ _ (by rw [h1]) rfl
  exact ⟨h1, h2⟩

/-! ### The all-503 run (claim C1) -/

/-- Loop lemma: against a transport that always raises a
service-unavailable error, every run of the loop with one more unit of
fuel than the distance to the limit re-raises the original error after
spending all the fuel, without touching the credential index. -/
theorem retryFrom_all_unavailable (req : Nat → ClientState → Except String α)
    (msg : String) (hreq : ∀ n s, req n s = .error msg)
    (hc : classifyError msg = .unavailable) (mr : Nat) :
    ∀ fuel rc st, rc + fuel = mr →
      (retryFrom req mr rc (fuel + 1) st).1 = Except.error (.raised msg) ∧
      (retryFrom req mr rc (fuel + 1) st).2.2 = fuel + 1 ∧
      (retryFrom req mr rc (fuel + 1) st).2.1.currentKeyIndex = st.currentKeyIndex := by
  intro fuel
  induction fuel with
  | zero =>
    intro rc st h
    have hhe : handleError st msg rc mr = (false, st) := by
      unfold handleError
      rw [if_pos (by omega)]
    simp [retryFrom, hreq, hhe]
  | succ n ih =>
    intro rc st h
    have hhe : handleError st msg rc mr = (true, pushSleep st st.retryDelay503) := by
      unfold handleError
      rw [if_neg (by omega), hc]
    have hrec := ih (rc + 1) (pushSleep st st.retryDelay503) (by omega)
    have key : retryFrom req mr rc (n + 1 + 1) st
        = ((retryFrom req mr (rc + 1) (n + 1) (pushSleep st st.retryDelay503)).1,
           (retryFrom req mr (rc + 1) (n + 1) (pushSleep st st.retryDelay503)).2.1,
           (retryFrom req mr (rc + 1) (n + 1) (pushSleep st st.retryDelay503)).2.2 + 1) := by
      conv_lhs => rw [retryFrom]
      rw [hreq]
      simp only [hhe]
    rw [key]
    exact ⟨hrec.1, by rw [hrec.2.1], hrec.2.2⟩

/-- Counterexample to C1 as stated: against the transport that always
raises "503 Service Unavailable" and the configured limit 3, the
operation does not fail with the retries-exhausted failure naming the
limit (line 118 is unreachable); it re-raises the original 503 error. -/
theorem retry_exhaustion_counterexample :
    (makeRequestWithRetry (fun _ _ => (.error "503 Service Unavailable" : Except String Nat)) wSt).1
      = .error (.raised "503 Service Unavailable") ∧
    ¬ (makeRequestWithRetry (fun _ _ => (.error "503 Service Unavailable" : Except String Nat)) wSt).1
      = .error (.exhausted wSt.maxRetries) := by
  have h1 : (makeRequestWithRetry
      (fun _ _ => (.error "503 Service Unavailable" : Except String Nat)) wSt).1
      = .error (.raised "503 Service Unavailable") := rfl
  refine ⟨h1, ?_⟩
  intro h
  rw [h1] at h
  simp at h

/-- C1 as amended: against a transport that raises a
service-unavailable-classified error on every attempt, the operation
fails after exactly `maxRetries + 1` attempts of the underlying request
function by re-raising the original error (never the retries-exhausted
failure of line 118), and the credential index is the same after the
call as before it. -/
theorem retry_all_503_propagates_original (st : ClientState)
    (req : Nat → ClientState → Except String α) (msg : String)
    (hreq : ∀ n s, req n s = .error msg)
    (hc : classifyError msg = .unavailable) :
    (makeRequestWithRetry req st).1 = .error (.raised msg) ∧
    (makeRequestWithRetry req st).2.2 = st.maxRetries + 1 ∧
    (makeRequestWithRetry req st).2.1.currentKeyIndex = st.currentKeyIndex ∧
    ∀ n, ¬ (makeRequestWithRetry req st).1 = .error (.exhausted n) := by
  have h := retryFrom_all_unavailable req msg hreq hc st.maxRetries
    st.maxRetries 0 st (by omega)
  refine ⟨h.1, h.2.1, h.2.2, ?_⟩
  intro n hn
  have hboth : Except.error (α := α) (ReqError.raised msg)
      = Except.error (ReqError.exhausted n) := h.1.symm.trans hn
  simp at hboth

/-- Witness for C1 as amended, at the always-503 transport and the
two-key state with limit 3. -/
theorem retry_all_503_propagates_original_witness :
    (makeRequestWithRetry (fun _ _ => (.error "503" : Except String Nat)) wSt).1
      = .error (.raised "503") ∧
    (makeRequestWithRetry (fun _ _ => (.error "503" : Except String Nat)) wSt).2.2
      = wSt.maxRetries + 1 ∧
    (makeRequestWithRetry (fun _ _ => (.error "503" : Except String Nat)) wSt).2.1.currentKeyIndex
      = wSt.currentKeyIndex ∧
    ∀ n, ¬ (makeRequestWithRetry (fun _ _ => (.error "503" : Except String Nat)) wSt).1
      = .error (.exhausted n) :=
  retry_all_503_propagates_original wSt (fun _ _ => .error "503") "503"
    (fun _ _ => rfl) rfl

/-! ### The 429-then-success run (claim C4) -/

/-- Loop lemma: against a transport that raises a rate-limit-classified
error strictly before attempt `k` and succeeds at attempt `k`, a run of
the loop entered at `rc ≤ k` with full remaining fuel succeeds after
`k - rc + 1` calls, rotating the credential index once per failing
attempt and leaving the pool untouched. -/
theorem retryFrom_429_upto (req : Nat → ClientState → Except String α)
    (msg : String) (v : α) (k mr : Nat)
    (hfail : ∀ n s, n < k → req n s = .error msg)
    (hsucc : ∀ s, req k s = .ok v)
    (hc : classifyError msg = .rateLimit)
    (hk : k ≤ mr) :
    ∀ fuel rc st, rc + fuel = mr + 1 → rc ≤ k →
      st.currentKeyIndex < st.apiKeys.length →
      (retryFrom req mr rc fuel st).1 = Except.ok v ∧
      (retryFrom req mr rc fuel st).2.2 = k - rc + 1 ∧
      (retryFrom req mr rc fuel st).2.1.currentKeyIndex
        = (st.currentKeyIndex + (k - rc)) % st.apiKeys.length ∧
      (retryFrom req mr rc fuel st).2.1.apiKeys = st.apiKeys := by
  intro fuel
  induction fuel with
  | zero =>
    intro rc st h hrc hidx
    exfalso
    omega
  | succ n ih =>
    intro rc st h hrc hidx
    rcases Nat.lt_or_ge rc k with hlt | hge
    · have hhe : handleError st msg rc mr
          = (true, pushSleep (switchApiKey st) st.retryDelay429) := by
        unfold handleError
        rw [if_neg (by omega), hc]
      have hidx' : (pushSleep (switchApiKey st) st.retryDelay429).currentKeyIndex
          < (pushSleep (switchApiKey st) st.retryDelay429).apiKeys.length := by
        show (st.currentKeyIndex + 1) % st.apiKeys.length < st.apiKeys.length
        exact Nat.mod_lt _ (by omega)
      have hrec := ih (rc + 1) (pushSleep (switchApiKey st) st.retryDelay429)
        (by omega) (by omega) hidx'
      have key : retryFrom req mr rc (n + 1) st
          = ((retryFrom req mr (rc + 1) n (pushSleep (switchApiKey st) st.retryDelay429)).1,
             (retryFrom req mr (rc + 1) n (pushSleep (switchApiKey st) st.retryDelay429)).2.1,
             (retryFrom req mr (rc + 1) n (pushSleep (switchApiKey st) st.retryDelay429)).2.2 + 1) := by
        conv_lhs => rw [retryFrom]
        rw [hfail rc st hlt]
        simp only [hhe]
      rw [key]
      refine ⟨hrec.1, ?_, ?_, hrec.2.2.2⟩
      · show (retryFrom req mr (rc + 1) n (pushSleep (switchApiKey st) st.retryDelay429)).2.2 + 1
            = k - rc + 1
        rw [hrec.2.1]
        omega
      rw [hrec.2.2.1]
      show ((st.currentKeyIndex + 1) % st.apiKeys.length + (k - (rc + 1)))
          % st.apiKeys.length = (st.currentKeyIndex + (k - rc)) % st.apiKeys.length
      rw [Nat.mod_add_mod]
      congr 1
      omega
    · have hrk : rc = k := by omega
      subst hrk
      have key : retryFrom req mr rc (n + 1) st = (Except.ok v, st, 1) := by
        conv_lhs => rw [retryFrom]
        rw [hsucc st]
      rw [key]
      refine ⟨rfl, by simp, ?_, rfl⟩
      show st.currentKeyIndex = (st.currentKeyIndex + (rc - rc)) % st.apiKeys.length
      rw [Nat.sub_self, Nat.add_zero, Nat.mod_eq_of_lt hidx]

/-- C4: against a transport that raises a rate-limit-classified error
(a "429") on the first `k < maxRetries` attempts and then succeeds,
`generate_text` returns the successful result after `k + 1` attempts
and the credential index has advanced exactly `k` times with
wrap-around; and no class other than rate-limit ever rotates the
index in `_handle_error`. -/
theorem rate_limit_rotation_per_attempt (st : ClientState)
    (req : Nat → ClientState → Except String String) (msg : String)
    (v : String) (k : Nat)
    (hk : k < st.maxRetries)
    (hfail : ∀ n s, n < k → req n s = .error msg)
    (hsucc : ∀ s, req k s = .ok v)
    (hc : classifyError msg = .rateLimit)
    (hidx : st.currentKeyIndex < st.apiKeys.length) :
    (generateText st req).1 = .ok v ∧
    (generateText st req).2.2 = k + 1 ∧
    (generateText st req).2.1.currentKeyIndex
      = (st.currentKeyIndex + k) % st.apiKeys.length ∧
    ∀ (s : ClientState) (m : String) (rc mr : Nat),
      ¬ classifyError m = ErrClass.rateLimit →
      ((handleError s m rc mr).2).currentKeyIndex = s.currentKeyIndex := by
  have h := retryFrom_429_upto req msg v k st.maxRetries hfail hsucc hc (by omega)
    (st.maxRetries + 1) 0 st (by omega) (by omega) hidx
  refine ⟨h.1, by simpa using h.2.1, by simpa using h.2.2.1, ?_⟩
  intro s m rc mr hm
  unfold handleError
  split
  · rfl
  · cases hcm : classifyError m
    case rateLimit => exact absurd hcm hm
    all_goals rfl

/-- Witness for C4: two 429 attempts then success, on the two-key state
with limit 3: the index advances twice, wrapping back to 0. -/
theorem rate_limit_rotation_per_attempt_witness :
    (generateText wSt (fun n _ => if n < 2 then .error "429" else .ok "done")).1
      = .ok "done" ∧
    (generateText wSt (fun n _ => if n < 2 then .error "429" else .ok "done")).2.2
      = 2 + 1 ∧
    (generateText wSt (fun n _ => if n < 2 then .error "429" else .ok "done")).2.1.currentKeyIndex
      = (wSt.currentKeyIndex + 2) % wSt.apiKeys.length := by
  have h := rate_limit_rotation_per_attempt wSt
    (fun n _ => if n < 2 then .error "429" else .ok "done") "429" "done" 2
    (by decide)
    (fun n s hn => by simp [hn])
    (fun s => rfl)
    rfl
    (by decide)
  exact ⟨h.1, h.2.1, h.2.2.1⟩

/-! ### Upload-phase failures under the operation-level wrapper (claim C2) -/

/-- Counterexample to C2 as stated: a transient 503 failure of the
upload-start call is swallowed inside the upload sub-protocol and
replaced by the upload-failed message, which matches no retry class, so
the public operation makes exactly one attempt even though three
retries are configured: transient upload failures are NOT retried at
the operation level. -/
theorem upload_failure_not_retried_counterexample :
    (analyzeImageWithPrompt wSt (fun _ => .error "503 Service Unavailable")
        (fun _ => .ok (some "upload-target")) (fun _ => .ok "analysis")).1
      = .error (.raised uploadFailedMsg) ∧
    (analyzeImageWithPrompt wSt (fun _ => .error "503 Service Unavailable")
        (fun _ => .ok (some "upload-target")) (fun _ => .ok "analysis")).2.2
      = 1 ∧
    wSt.maxRetries = 3 :=
  ⟨rfl, rfl, rfl⟩

/-- C2 as amended: an HTTP failure inside the upload sub-protocol
(start or transfer phase) is not retried inside the sub-protocol and
surfaces as the upload-failed message from the single attempt; and
because that message matches none of the retry classes, a transient
upload-phase failure is not retried at the operation level either: the
wrapped operation fails immediately after exactly one attempt with the
state untouched. -/
theorem upload_failure_fails_fast (e e2 url : String) (hurl : ¬ url = "")
    (tr : Except String (Option String)) (an an2 : Except String String)
    (st : ClientState) :
    analyzeImageRequest (.error e) tr an = (.error uploadFailedMsg, false) ∧
    analyzeImageRequest (.ok (some url)) (.error e2) an2 = (.error uploadFailedMsg, false) ∧
    analyzeImageWithPrompt st (fun _ => .error e) (fun _ => tr) (fun _ => an)
      = (.error (.raised uploadFailedMsg), st, 1) := by
  have h1 : analyzeImageRequest (.error e) tr an = (.error uploadFailedMsg, false) := rfl
  have h2 : analyzeImageRequest (.ok (some url)) (.error e2) an2
      = (.error uploadFailedMsg, false) := by
    unfold analyzeImageRequest uploadImageToGemini
    simp [optTruthy, hurl]
  have h3 : makeRequestWithRetry
      (fun _ _ => (analyzeImageRequest (.error e) tr an).1) st
      = (.error (.raised uploadFailedMsg), st, 1) :=
    makeRequest_unclassified _ _ _ (by rw [h1]) rfl
  exact ⟨h1, h2, h3⟩

/-- Witness for C2 as amended, with 503 failures in each phase. -/
theorem upload_failure_fails_fast_witness :
    analyzeImageRequest (.error "503 Service Unavailable")
        (.ok (some "upload-target")) (.ok "analysis")
      = (.error uploadFailedMsg, false) ∧
    analyzeImageRequest (.ok (some "upload-target"))
        (.error "503 Service Unavailable") (.ok "analysis")
      = (.error uploadFailedMsg, false) ∧
    analyzeImageWithPrompt wSt (fun _ => .error "503 Service Unavailable")
        (fun _ => .ok (some "upload-target")) (fun _ => .ok "analysis")
      = (.error (.raised uploadFailedMsg), wSt, 1) :=
  upload_failure_fails_fast "503 Service Unavailable" "503 Service Unavailable"
    "upload-target" (by decide) (.ok (some "upload-target")) (.ok "analysis")
    (.ok "analysis") wSt

/-! ### Output file names of image generation (claim C3) -/

/-- When the stem does not end in one of the four stripped characters,
the rstrip of line 148 applied to `stem ++ ".png"` removes exactly the
`.png` suffix. -/
theorem pyRstrip_stem_png (stem : String) (c : Char)
    (hc : stem.toList.getLast? = some c)
    (hmem : ¬ c ∈ ([Char.ofNat 46, 'p', 'n', 'g'] : List Char)) :
    pyRstrip (stem ++ ".png") [Char.ofNat 46, 'p', 'n', 'g'] = stem := by
  unfold pyRstrip
  have htl : (stem ++ ".png").toList = stem.toList ++ [Char.ofNat 46, 'p', 'n', 'g'] := by
    simp [String.toList, String.data_append]
  rw [htl, List.reverse_append]
  cases hrev : stem.toList.reverse with
  | nil =>
    exfalso
    rw [← List.head?_reverse, hrev] at hc
    exact Option.noConfusion hc
  | cons a t =>
    have ha : a = c := by
      have hh := List.head?_reverse stem.toList
      rw [hrev, hc] at hh
      exact Option.some.inj hh
    subst ha
    have hcontains : (([Char.ofNat 46, 'p', 'n', 'g'] : List Char).contains a) = false := by
      simpa using hmem
    have step : List.dropWhile
        (fun ch => ([Char.ofNat 46, 'p', 'n', 'g'] : List Char).contains ch)
        (([Char.ofNat 46, 'p', 'n', 'g'] : List Char).reverse ++ a :: t)
        = List.dropWhile
          (fun ch => ([Char.ofNat 46, 'p', 'n', 'g'] : List Char).contains ch)
          (a :: t) := rfl
    rw [step]
    simp only [List.dropWhile_cons, hcontains, Bool.false_eq_true, if_false]
    rw [← hrev, List.reverse_reverse]
    rfl

/-- The output name of a multi-sample save for a hint `stem ++ ".png"`
whose stem does not end in one of the stripped characters. -/
theorem outName_stem (stem : String) (c : Char)
    (hc : stem.toList.getLast? = some c)
    (hmem : ¬ c ∈ ([Char.ofNat 46, 'p', 'n', 'g'] : List Char)) (idx : Nat) :
    outName (stem ++ ".png") 3 idx = stem ++ "_" ++ toString (idx + 1) ++ ".png" := by
  unfold outName
  rw [if_neg (by omega), pyRstrip_stem_png stem c hc hmem]

/-- Counterexample to C3 as stated: for the hint filename "ping.png"
the rstrip of line 148 eats into the stem (it strips every trailing
character drawn from dot, p, n, g), so the three saved names are
"pi_1.png", "pi_2.png", "pi_3.png" and not the hint with the index
inserted before the extension. -/
theorem generate_images_suffix_counterexample :
    (generateImage wSt (fun _ => .ok [some "x", some "x", some "x"])
        3 (some "ping.png") "g").1
      = .ok (.multiple ["pi_1.png", "pi_2.png", "pi_3.png"]) ∧
    ¬ (generateImage wSt (fun _ => .ok [some "x", some "x", some "x"])
        3 (some "ping.png") "g").1
      = .ok (.multiple ["ping_1.png", "ping_2.png", "ping_3.png"]) := by
  have h1 : (generateImage wSt (fun _ => .ok [some "x", some "x", some "x"])
      3 (some "ping.png") "g").1
      = .ok (.multiple ["pi_1.png", "pi_2.png", "pi_3.png"]) := rfl
  refine ⟨h1, ?_⟩
  intro h
  rw [h1] at h
  simp at h

/-- C3 as amended: for hint filenames of the shape `stem ++ ".png"`
whose stem does not end in dot, p, n or g, and a successful response
carrying a payload for every prediction: with `sampleCount = 1` the
operation returns the single path named exactly the hint, and with
`sampleCount = 3` it returns three paths in response order named stem_1,
stem_2, stem_3 with the `.png` extension re-appended. -/
theorem generate_images_name_shapes (st : ClientState)
    (stem gen b1 b2 b3 : String) (c : Char)
    (hc : stem.toList.getLast? = some c)
    (hmem : ¬ c ∈ ([Char.ofNat 46, 'p', 'n', 'g'] : List Char)) :
    (generateImage st (fun _ => .ok [some b1]) 1 (some (stem ++ ".png")) gen).1
      = .ok (.single (stem ++ ".png")) ∧
    (generateImage st (fun _ => .ok [some b1, some b2, some b3])
        3 (some (stem ++ ".png")) gen).1
      = .ok (.multiple [stem ++ "_1.png", stem ++ "_2.png", stem ++ "_3.png"]) := by
  have hne : ¬ (stem ++ ".png") = "" := by
    intro h
    have h2 : (stem ++ ".png").data = [] := by rw [h]
    simp [String.data_append] at h2
  have htr : optTruthy (some (stem ++ ".png")) = true := by
    simp [optTruthy, hne]
  constructor
  · have hreq : generateImageRequest (.ok [some b1]) 1 (some (stem ++ ".png")) gen
        = .ok (.single (stem ++ ".png")) := by
      simp [generateImageRequest, generateImageResult, savePredictions, htr, outName]
    have h := makeRequest_ok
      (fun _ _ => generateImageRequest (.ok [some b1]) 1 (some (stem ++ ".png")) gen)
      st (.single (stem ++ ".png")) hreq
    show (makeRequestWithRetry
      (fun _ _ => generateImageRequest (.ok [some b1]) 1 (some (stem ++ ".png")) gen) st).1
      = .ok (.single (stem ++ ".png"))
    rw [h]
  · have hsave : savePredictions 3 gen [some b1, some b2, some b3] 0 (some (stem ++ ".png"))
        = [outName (stem ++ ".png") 3 0, outName (stem ++ ".png") 3 1,
           outName (stem ++ ".png") 3 2] := by
      simp [savePredictions, htr]
    have e1 : stem ++ "_" ++ toString (0 + 1) ++ ".png" = stem ++ "_1.png" := by
      rw [String.append_assoc, String.append_assoc]
      rfl
    have e2 : stem ++ "_" ++ toString (1 + 1) ++ ".png" = stem ++ "_2.png" := by
      rw [String.append_assoc, String.append_assoc]
      rfl
    have e3 : stem ++ "_" ++ toString (2 + 1) ++ ".png" = stem ++ "_3.png" := by
      rw [String.append_assoc, String.append_assoc]
      rfl
    have hreq : generateImageRequest (.ok [some b1, some b2, some b3])
        3 (some (stem ++ ".png")) gen
        = .ok (.multiple [stem ++ "_1.png", stem ++ "_2.png", stem ++ "_3.png"]) := by
      show generateImageResult [some b1, some b2, some b3] 3 (some (stem ++ ".png")) gen
        = .ok (.multiple [stem ++ "_1.png", stem ++ "_2.png", stem ++ "_3.png"])
      simp only [generateImageResult, hsave]
      rw [if_neg (by omega)]
      rw [outName_stem stem c hc hmem 0, outName_stem stem c hc hmem 1,
        outName_stem stem c hc hmem 2, e1, e2, e3]
    have h := makeRequest_ok
      (fun _ _ => generateImageRequest (.ok [some b1, some b2, some b3])
        3 (some (stem ++ ".png")) gen)
      st (.multiple [stem ++ "_1.png", stem ++ "_2.png", stem ++ "_3.png"]) hreq
    show (makeRequestWithRetry
      (fun _ _ => generateImageRequest (.ok [some b1, some b2, some b3])
        3 (some (stem ++ ".png")) gen) st).1
      = .ok (.multiple [stem ++ "_1.png", stem ++ "_2.png", stem ++ "_3.png"])
    rw [h]

/-- Witness for C3 as amended, at the hint "base.png". -/
theorem generate_images_name_shapes_witness :
    (generateImage wSt (fun _ => .ok [some "x"]) 1 (some ("base" ++ ".png")) "g").1
      = .ok (.single ("base" ++ ".png")) ∧
    (generateImage wSt (fun _ => .ok [some "x", some "y", some "z"])
        3 (some ("base" ++ ".png")) "g").1
      = .ok (.multiple ["base" ++ "_1.png", "base" ++ "_2.png", "base" ++ "_3.png"]) :=
  generate_images_name_shapes wSt "base" "g" "x" "y" "z" 'e' rfl (by decide)

/-! ### MIME mapping (claim C8) -/

/-- C8: for every file path the MIME type of `_get_mime_type` agrees
with the fixed case-insensitive mapping of the spec applied to the
extension of the path, and in particular an upper-case or mixed-case
`.PNG` maps to image/png while the unrecognized `.bmp` falls back to
image/jpeg. -/
theorem mime_type_matches_spec_map :
    (∀ p : String, getMimeType p = mimeSpecMap (splitextExt p)) ∧
    getMimeType "photo.PNG" = "image/png" ∧
    getMimeType "photo.pNg" = "image/png" ∧
    getMimeType "photo.bmp" = "image/jpeg" := by
  refine ⟨fun p => ?_, rfl, rfl, rfl⟩
  simp only [getMimeType, mimeSpecMap]
  split_ifs <;> tauto

end GeminiClient
